import Mathlib

set_option maxRecDepth 8192

/-!
Verification development for the chainapp chat-orchestration backend.

The Python sources are shallowly embedded as executable Lean definitions:

* `tools/tool_manager.py` — tool dispatch (`executeTool`), the per-round
  execution loop (`executeToolCalls`) and result formatting (`resultContent`);
* `tools/role_tools.py` — the role-proxy tool (`callRoleFunction`,
  `getOrCreateRoleContext`);
* `utils/session_manager.py` — the persisted session store (`addMessage`,
  `getMessages`, `lookupSession`);
* `models/model_manager.py` — the process-wide model selection
  (`roleModelSwitch`, `chatWithModel`);
* `chat_server.py` — the streaming orchestration loop (`processStream`),
  sentence chunking (`contentChunks`), message conversion
  (`convertMessages`), the streaming chat endpoint slice (`chatStreamRun`)
  and the non-streaming endpoint (`chatNonStreaming`).

Wall-clock timestamps, logging, HTTP wiring and the on-disk JSON files are
not modelled; persistence is represented by the in-memory session map that
`save_session` mirrors to disk.  The model gateway (`tool_chat.invoke`) is a
parameter: a function from the current message list to either a reply or an
exception message.
-/

namespace ChainApp

/-- Python values as far as the verified operations inspect them
(strings, numbers, booleans).  Numbers are modelled as rationals. -/
inductive PyValue where
  | str (s : String)
  | num (q : Rat)
  | boolean (b : Bool)
deriving Repr, DecidableEq

/-- Python `str(v)`, used by f-string interpolation of dict values.  The exact
numeric rendering is irrelevant to every claim. -/
def PyValue.pystr : PyValue → String
  | .str s => s
  | .num q => toString q
  | .boolean b => if b then "True" else "False"

/-- A Python keyword-argument mapping, in insertion order. -/
def Args := List (String × PyValue)
deriving Repr, DecidableEq

/-- `arguments.get(key, default)` for string-valued arguments. -/
def argStr (args : Args) (key dflt : String) : String :=
  match List.lookup key args with
  | some v => v.pystr
  | Option.none => dflt

/-- `arguments.get(key)` returning `None` when absent. -/
def argStrOpt (args : Args) (key : String) : Option String :=
  match List.lookup key args with
  | some v => some v.pystr
  | Option.none => Option.none

/-- `arguments.get(key, 0)` for the numeric arguments of the math tool
(`tool_manager.py:105-106`); arguments are numbers per the declared schema. -/
def argNum (args : Args) (key : String) : Rat :=
  match List.lookup key args with
  | some (.num q) => q
  | _ => 0

/-- Python `s.startswith(pre)`, on code points. -/
def strStartsWith (s pre : String) : Bool :=
  pre.toList.isPrefixOf s.toList

/-- Python slicing `s[n:]`, on code points. -/
def strDrop (s : String) (n : Nat) : String :=
  (s.toList.drop n).asString

/-- A model-issued tool-call request (`{id, name, args}` dict shape used in
`chat_server.py:230-235` and `tool_manager.py:202-204`). -/
structure ToolCall where
  id : String
  name : String
  args : Args
deriving Repr, DecidableEq

/-- A tool execution result: the Python result dict, in insertion order. -/
def ExecResult := List (String × PyValue)
deriving Repr, DecidableEq

/-- LangChain `ToolMessage(content, tool_call_id)`. -/
structure ToolMsg where
  content : String
  toolCallId : String
deriving Repr, DecidableEq

/-- LangChain message turns as built by the server
(`SystemMessage` / `HumanMessage` / `AIMessage` / `ToolMessage`). -/
inductive Msg where
  | system (content : String)
  | human (content : String)
  | ai (content : String) (toolCalls : List ToolCall)
  | tool (content : String) (toolCallId : String)
deriving Repr, DecidableEq

/-- The typed streaming records of `process_streaming_response`
(`chat_server.py:226-300`): `thinking`, `tool_result`, `content`, `done`,
`error`. -/
inductive Event where
  | thinking (content : String) (toolCalls : List ToolCall)
  | toolResult (toolName : String) (toolArgs : Args) (result : String)
      (step : Nat) (totalSteps : Nat)
  | content (content : String) (isFinal : Bool)
  | done (finishReason : String) (sessionId : Option String)
  | error (message : String)
deriving Repr, DecidableEq

/-- Whether an event is an `error` record. -/
def Event.isError : Event → Bool
  | .error _ => true
  | _ => false

/-- Whether an event is the terminal `done` record. -/
def Event.isDone : Event → Bool
  | .done _ _ => true
  | _ => false

/-- Whether an event is a `tool_result` record. -/
def Event.isToolResult : Event → Bool
  | .toolResult _ _ _ _ _ => true
  | _ => false

/-- A persona (`roles/role_manager.py` `RoleConfig`); avatar, category,
timestamps, `is_system`, `user_id` and `model_config` are never consulted by
the verified operations and are omitted. -/
structure RoleConfig where
  roleId : String
  name : String
  description : String
  systemPrompt : String
  tags : List String
  defaultModel : Option String
deriving Repr, DecidableEq

/-- A persisted turn record (`utils/session_manager.py` `ChatMessage`);
the wall-clock `timestamp` and `tool_results` fields are claim-irrelevant
and omitted. -/
structure ChatMessageRec where
  role : String
  content : String
  toolCalls : Option (List ToolCall)
deriving Repr, DecidableEq

/-- A persisted session (`utils/session_manager.py` `ChatSession`);
`created_at` / `last_active` / `user_info` are claim-irrelevant and omitted. -/
structure ChatSession where
  sessionId : String
  messages : List ChatMessageRec
  systemPrompt : String
deriving Repr, DecidableEq

/-- Per-(user, role) conversational memory
(`tools/role_tools.py` `RoleToolContext`). -/
structure RoleToolContext where
  roleId : String
  sessionId : String
  messages : List (String × String)
  modelName : Option String
deriving Repr, DecidableEq

/-- The process state shared by the managers: the session store
(`session_manager.sessions`), the role-context map
(`role_tool_manager.role_contexts`), the persona store
(`role_manager`), and the process-wide model selection
(`model_manager.current_config` plus the set of available model names,
which in the source depends on configured API keys). -/
structure AppState where
  sessions : List (String × ChatSession)
  roleContexts : List (String × List (String × RoleToolContext))
  roles : List RoleConfig
  availableModels : List String
  currentModel : Option String
deriving Repr, DecidableEq

/-- `role_manager.get_role` (load by id from the role store). -/
def getRole (st : AppState) (roleId : String) : Option RoleConfig :=
  st.roles.find? fun r => r.roleId == roleId

/-- The six system personas seeded by `RoleManager.init_system_roles`
(`roles/role_manager.py:370-469`). -/
def systemRoles : List RoleConfig :=
  [ { roleId := "default", name := "默认助手",
      description := "通用智能助手，可以回答各种问题并执行工具",
      systemPrompt := "你是一个有用的AI助手，可以回答用户的问题并使用提供的工具来帮助用户完成任务。",
      tags := ["默认", "通用", "助手"], defaultModel := some "gpt-4o-mini" },
    { roleId := "ikun", name := "iKun",
      description := "会唱、跳、rap、篮球的智能助手",
      systemPrompt := "你的名字是iKun，擅长唱、跳、rap、打篮球，你的回答里面总是带着这些元素。你是一个活泼、有趣、充满活力的助手。",
      tags := ["iKun", "娱乐", "活泼", "篮球"], defaultModel := some "gpt-4o-mini" },
    { roleId := "programmer", name := "程序员助手",
      description := "专业的编程助手，擅长代码编写和技术问题解答",
      systemPrompt := "你是一个专业的编程助手，精通多种编程语言和技术框架。你可以帮助用户编写代码、调试问题、解释技术概念，并提供最佳实践建议。",
      tags := ["编程", "开发", "技术", "代码"], defaultModel := some "claude-3-5-sonnet-20241022" },
    { roleId := "translator", name := "翻译专家",
      description := "专业的多语言翻译助手",
      systemPrompt := "你是一个专业的翻译专家，精通多种语言之间的翻译。你会提供准确、自然、符合语境的翻译，并能解释语言细节和文化差异。",
      tags := ["翻译", "语言", "多语言"], defaultModel := some "gpt-4o" },
    { roleId := "teacher", name := "教学助手",
      description := "耐心的教学助手，擅长解释复杂概念",
      systemPrompt := "你是一个耐心的教学助手，擅长用简单易懂的方式解释复杂的概念。你会根据用户的理解水平调整解释方式，并提供相关的例子和练习。",
      tags := ["教学", "教育", "解释", "学习"], defaultModel := some "claude-3-5-sonnet-20241022" },
    { roleId := "creative_writer", name := "创意写手",
      description := "富有创意的写作助手",
      systemPrompt := "你是一个富有创意的写作助手，擅长创作各种类型的文字内容，包括故事、诗歌、文章等。你有丰富的想象力和优秀的文字表达能力。",
      tags := ["写作", "创意", "文学", "创作"], defaultModel := some "claude-3-5-sonnet-20241022" } ]

/-- Fresh process state: empty session store and role-context map, the
system personas registered, no model loaded yet. -/
def initState : AppState :=
  { sessions := [], roleContexts := [], roles := systemRoles,
    availableModels := [], currentModel := Option.none }

/-- Session lookup (`SessionManager.get_session`, in-memory map;
the file-reload fallback and the `last_active` bump are not modelled). -/
def lookupSession (st : AppState) (sid : String) : Option ChatSession :=
  List.lookup sid st.sessions

/-- Replace the stored session for `sid` keeping every other entry. -/
def setSession (sessions : List (String × ChatSession)) (sid : String)
    (s : ChatSession) : List (String × ChatSession) :=
  sessions.map fun p => if p.1 == sid then (p.1, s) else p

/-- Number of persisted messages in session `sid` (0 when absent). -/
def sessionMsgCount (st : AppState) (sid : String) : Nat :=
  match lookupSession st sid with
  | some s => s.messages.length
  | Option.none => 0

/-- The append-then-trim step of `SessionManager.add_message`
(`utils/session_manager.py:130-136`): append the record; when the list now
exceeds 100 entries keep only the most recent 100 (`messages[-100:]`). -/
def cappedAppend (msgs : List ChatMessageRec) (m : ChatMessageRec) :
    List ChatMessageRec :=
  if (msgs ++ [m]).length > 100 then (msgs ++ [m]).drop ((msgs ++ [m]).length - 100)
  else msgs ++ [m]

/-- `SessionManager.add_message` (`utils/session_manager.py:113-140`):
append the record, then keep only the most recent 100 messages; the
`save_session` call persists the updated map.  Returns the `bool` result
(false when the session does not exist, in which case nothing is added). -/
def addMessage (st : AppState) (sid role content : String)
    (toolCalls : Option (List ToolCall)) : Bool × AppState :=
  match lookupSession st sid with
  | Option.none => (false, st)
  | some s =>
    (true,
      { st with
          sessions :=
            setSession st.sessions sid
              ({ s with
                  messages :=
                    cappedAppend s.messages
                      ({ role := role, content := content, toolCalls := toolCalls }) }) })

/-- `SessionManager.get_messages` (`utils/session_manager.py:142-152`):
the last `limit` messages (`messages[-limit:]`; Python treats `limit=0` as
falsy and returns the whole list). -/
def getMessages (st : AppState) (sid : String) (limit : Option Nat) :
    List ChatMessageRec :=
  match lookupSession st sid with
  | Option.none => []
  | some s =>
    match limit with
    | Option.none => s.messages
    | some n => if n = 0 then s.messages else s.messages.drop (s.messages.length - n)

/-- `SessionManager.create_session` (`utils/session_manager.py:70-88`).
Its Python signature accepts only `system_prompt` and `user_info`; the fresh
uuid is supplied as the `sid` argument here. -/
def createSession (st : AppState) (sid systemPrompt : String) : AppState :=
  { st with sessions :=
      st.sessions ++ [(sid, { sessionId := sid, messages := [], systemPrompt := systemPrompt })] }

/-- Error text of the `TypeError` raised by the call
`session_manager.create_session(system_prompt=..., role_id=role_id)` at
`tools/role_tools.py:80-83`: `SessionManager.create_session`
(`utils/session_manager.py:70`) accepts no `role_id` keyword, so the call
raises before the function body runs and no session is created. -/
def createSessionRoleIdTypeError : String :=
  "create_session() got an unexpected keyword argument role_id"

/-- Error text of the `AttributeError` raised by
`model_manager.chat_with_model(messages)` at `tools/role_tools.py:149`:
`ModelManager` (`models/model_manager.py:134-332`) defines no attribute
`chat_with_model`. -/
def chatWithModelAttributeError : String :=
  "ModelManager object has no attribute chat_with_model"

/-- The attribute access `model_manager.chat_with_model` at
`tools/role_tools.py:149` always raises `AttributeError`: the method does
not exist anywhere in the repository. -/
def chatWithModel (_st : AppState) (_msgs : List (String × String)) :
    Except String String :=
  Except.error chatWithModelAttributeError

/-- First half of `RoleToolManager._get_or_create_role_context`
(`tools/role_tools.py:68-71`): ensure the per-user sub-map exists.  This dict
mutation persists even when the subsequent session creation raises. -/
def ensureUserEntry (st : AppState) (userId : String) : AppState :=
  if (List.lookup userId st.roleContexts).isSome then st
  else { st with roleContexts := st.roleContexts ++ [(userId, [])] }

/-- Lookup of the (user, role) context in `role_tool_manager.role_contexts`. -/
def lookupRoleContext (st : AppState) (userId roleId : String) :
    Option RoleToolContext :=
  match List.lookup userId st.roleContexts with
  | Option.none => Option.none
  | some m => List.lookup roleId m

/-- Store the (user, role) context (`self.role_contexts[user_id][role_id] = ...`). -/
def setRoleContext (st : AppState) (userId roleId : String)
    (ctx : RoleToolContext) : AppState :=
  { st with roleContexts := st.roleContexts.map fun p =>
      if p.1 == userId then
        (p.1, (p.2.filter fun q => q.1 ≠ roleId) ++ [(roleId, ctx)])
      else p }

/-- `RoleToolManager._get_or_create_role_context`
(`tools/role_tools.py:68-95`).  When the (user, role) context is absent the
code resolves the persona and then calls
`session_manager.create_session(system_prompt=..., role_id=role_id)`, which
raises `TypeError` (see `createSessionRoleIdTypeError`): lazy creation can
never complete, and no context is stored. -/
def getOrCreateRoleContext (st : AppState) (roleId userId : String) :
    Except String RoleToolContext × AppState :=
  let st1 := ensureUserEntry st userId
  match lookupRoleContext st1 userId roleId with
  | some ctx => (Except.ok ctx, st1)
  | Option.none =>
    match getRole st1 roleId with
    | Option.none => (Except.error ("角色不存在: " ++ roleId), st1)
    | some _ => (Except.error createSessionRoleIdTypeError, st1)

/-- Model switching inside `call_role_function` (`tools/role_tools.py:120-131`):
switch the process-wide current model when a target is set, differs from the
current one, and is among the available models; otherwise keep the current
model (the source only logs a warning). -/
def roleModelSwitch (st : AppState) (targetModel : Option String) : AppState :=
  match targetModel with
  | Option.none => st
  | some t =>
    if st.currentModel ≠ some t then
      if t ∈ st.availableModels then { st with currentModel := some t } else st
    else st

/-- The `{"error": ..., "success": False}` dict returned by
`call_role_function` when any step raises (`tools/role_tools.py:172-177`). -/
def roleFailure (e : String) : ExecResult :=
  [("error", PyValue.str e), ("success", PyValue.boolean false)]

/-- `RoleToolManager.call_role_function` (`tools/role_tools.py:97-177`),
with each `raise` desugared to the `except` branch returning
`roleFailure`.  Note that Python `or` treats the empty string as falsy in
`target_model = model_override or context.model_name`. -/
def callRoleFunction (st : AppState) (functionName : String) (args : Args) :
    ExecResult × AppState :=
  if ¬ strStartsWith functionName "call_role_" then
    (roleFailure ("无效的角色函数名: " ++ functionName), st)
  else
    let roleId := strDrop functionName 10
    match getRole st roleId with
    | Option.none => (roleFailure ("角色不存在: " ++ roleId), st)
    | some role =>
      let message := argStr args "message" ""
      let userId := argStr args "user_id" "default_user"
      let modelOverride := argStrOpt args "model_override"
      if message = "" then (roleFailure "消息内容不能为空", st)
      else
        match getOrCreateRoleContext st roleId userId with
        | (Except.error e, st1) => (roleFailure e, st1)
        | (Except.ok ctx, st1) =>
          let targetModel :=
            match modelOverride with
            | some m => if m = "" then ctx.modelName else some m
            | Option.none => ctx.modelName
          let st2 := roleModelSwitch st1 targetModel
          let histo := getMessages st2 ctx.sessionId (some 10)
          let promptMsgs :=
            (if role.systemPrompt ≠ "" then [("system", role.systemPrompt)] else [])
              ++ histo.map (fun m => (m.role, m.content)) ++ [("user", message)]
          match chatWithModel st2 promptMsgs with
          | Except.error e => (roleFailure e, st2)
          | Except.ok resp =>
            let st3 := (addMessage st2 ctx.sessionId "user" message Option.none).2
            let st4 := (addMessage st3 ctx.sessionId "assistant" resp Option.none).2
            let ctxMsgs := ctx.messages ++ [("user", message), ("assistant", resp)]
            let ctxMsgs :=
              if ctxMsgs.length > 20 then ctxMsgs.drop (ctxMsgs.length - 20) else ctxMsgs
            let st5 := setRoleContext st4 userId roleId { ctx with messages := ctxMsgs }
            let modelUsed :=
              match st5.currentModel with
              | some n => n
              | Option.none => "unknown"
            ([("role_name", PyValue.str role.name), ("role_id", PyValue.str roleId),
              ("response", PyValue.str resp), ("model_used", PyValue.str modelUsed),
              ("context_length", PyValue.num ctxMsgs.length),
              ("success", PyValue.boolean true)], st5)

/-- `MathTool.can_handle` (`tools/tool_manager.py:125-126`). -/
def mathCanHandle (functionName : String) : Bool :=
  functionName ∈ ["add", "multiply", "subtract", "divide"]

/-- Success dict of one math operation (`tools/tool_manager.py:121`). -/
def mathOk (a b : Rat) (functionName : String) (result : Rat) : ExecResult :=
  [("result", PyValue.num result),
   ("operation", PyValue.str
      (toString a ++ " " ++ functionName ++ " " ++ toString b ++ " = " ++ toString result))]

/-- `MathTool.execute` (`tools/tool_manager.py:103-123`). -/
def mathExecute (functionName : String) (args : Args) : ExecResult :=
  let a := argNum args "a"
  let b := argNum args "b"
  if functionName = "add" then mathOk a b functionName (a + b)
  else if functionName = "multiply" then mathOk a b functionName (a * b)
  else if functionName = "subtract" then mathOk a b functionName (a - b)
  else if functionName = "divide" then
    if b = 0 then [("error", PyValue.str "除数不能为零")]
    else mathOk a b functionName (a / b)
  else [("error", PyValue.str ("未知的数学函数: " ++ functionName))]

/-- `SearchTool.can_handle` (`tools/tool_manager.py:167-168`). -/
def searchCanHandle (functionName : String) : Bool :=
  functionName ∈ ["web_search"]

/-- `SearchTool.execute` (`tools/tool_manager.py:152-165`). -/
def searchExecute (functionName : String) (args : Args) : ExecResult :=
  if functionName = "web_search" then
    let query := argStr args "query" ""
    [("query", PyValue.str query),
     ("results", PyValue.str ("搜索结果：" ++ query ++ "（模拟结果）")),
     ("status", PyValue.str "success")]
  else [("error", PyValue.str ("未知的搜索函数: " ++ functionName))]

/-- JSON rendering of one value, as `json.dumps` would produce it
(string escaping is simplified; no claim inspects success contents). -/
def PyValue.renderJson : PyValue → String
  | .str s => "\"" ++ s ++ "\""
  | .num q => toString q
  | .boolean b => if b then "true" else "false"

/-- Comma-separated JSON members of a result dict. -/
def renderMembers : List (String × PyValue) → String
  | [] => ""
  | [(k, v)] => "\"" ++ k ++ "\": " ++ v.renderJson
  | (k, v) :: rest => "\"" ++ k ++ "\": " ++ v.renderJson ++ ", " ++ renderMembers rest

/-- `json.dumps(result, ensure_ascii=False)` on a result dict
(`tools/tool_manager.py:287`); braces written via escapes. -/
def renderJson (r : ExecResult) : String :=
  "\x7b" ++ renderMembers r ++ "\x7d"

/-- Tool-turn content formatting in `execute_tool_calls`
(`tools/tool_manager.py:283-287`): `"错误: <msg>"` when the result dict has
an `error` key, else the JSON dump of the dict. -/
def resultContent (r : ExecResult) : String :=
  match List.lookup "error" r with
  | some v => "错误: " ++ v.pystr
  | Option.none => renderJson r

/-- `ToolManager.execute_tool` (`tools/tool_manager.py:198-232`): route
`call_role_*` names to the role-proxy, then try the math and search tools in
registration order, and otherwise return the not-found error dict.  Every
branch catches its own exceptions, so the function never raises. -/
def executeTool (st : AppState) (tc : ToolCall) : ExecResult × AppState :=
  if strStartsWith tc.name "call_role_" then callRoleFunction st tc.name tc.args
  else if mathCanHandle tc.name then (mathExecute tc.name tc.args, st)
  else if searchCanHandle tc.name then (searchExecute tc.name tc.args, st)
  else ([("error", PyValue.str ("未找到工具: " ++ tc.name))], st)

/-- One observable effect inside a tool round: the execution of the
`step`-th requested tool, or the emission of the `step`-th `tool_result`
event (1-based, in the model's request order). -/
inductive Action where
  | exec (step : Nat) (toolName : String)
  | emit (step : Nat) (toolName : String)
deriving Repr, DecidableEq

/-- Whether an action is a `tool_result` emission. -/
def Action.isEmitB : Action → Bool
  | .emit _ _ => true
  | _ => false

/-- Whether an action is a tool execution. -/
def Action.isExecB : Action → Bool
  | .exec _ _ => true
  | _ => false

/-- The loop body of `execute_tool_calls` (`tools/tool_manager.py:273-314`):
execute each call in request order, wrap each result as a
`ToolMessage(content, tool_call_id)`, and record one `Action.exec` per
execution in the order the executions happen.  (`execute_tool` catches all
exceptions, so the `except` branch at `tool_manager.py:301-312` is dead.) -/
def executeToolCallsGo (st : AppState) (step : Nat) :
    List ToolCall → List ToolMsg × List Action × AppState
  | [] => ([], [], st)
  | tc :: rest =>
    let r := executeTool st tc
    let tm : ToolMsg := { content := resultContent r.1, toolCallId := tc.id }
    let next := executeToolCallsGo r.2 (step + 1) rest
    (tm :: next.1, Action.exec step tc.name :: next.2.1, next.2.2)

/-- `execute_tool_calls(tool_calls, tool_map)` (`tools/tool_manager.py:273-314`):
the list of tool messages, one per requested call, in request order. -/
def executeToolCalls (st : AppState) (calls : List ToolCall) :
    List ToolMsg × AppState :=
  ((executeToolCallsGo st 1 calls).1, (executeToolCallsGo st 1 calls).2.2)

/-- The `tool_result` events emitted for one round
(`chat_server.py:247-256`): `enumerate(zip(result.tool_calls, tool_messages))`
with `step = i + 1` and `total_steps = len(tool_messages)`. -/
def roundEvents (calls : List ToolCall) (toolMsgs : List ToolMsg) : List Event :=
  (calls.zip toolMsgs).enum.map fun p =>
    Event.toolResult p.2.1.name p.2.1.args p.2.2.content (p.1 + 1) toolMsgs.length

/-- The order of effects in one tool round of the streaming handler:
`execute_tool_calls` runs first and performs every execution
(`chat_server.py:244`, loop at `tool_manager.py:278-313`), and only then the
`for` loop at `chat_server.py:247-256` emits the `tool_result` events. -/
def roundTrace (st : AppState) (calls : List ToolCall) : List Action :=
  (executeToolCallsGo st 1 calls).2.1
    ++ (calls.zip (executeToolCallsGo st 1 calls).1).enum.map
        fun p => Action.emit (p.1 + 1) p.2.1.name

/-- Split a character list at every occurrence of `sep`, keeping empty
pieces — the semantics of Python `str.split` with a one-character
separator. -/
def splitOnChar (sep : Char) : List Char → List (List Char)
  | [] => [[]]
  | c :: rest =>
    match splitOnChar sep rest with
    | [] => [[c]]
    | s :: ss => if c = sep then [] :: s :: ss else (c :: s) :: ss

/-- Python `content.split('。')` (`chat_server.py:268`). -/
def splitSentences (content : String) : List String :=
  (splitOnChar '。' content.toList).map List.asString

/-- Python `str.strip()`: drop leading and trailing whitespace. -/
def pyStrip (s : String) : String :=
  (((s.toList.dropWhile Char.isWhitespace).reverse.dropWhile Char.isWhitespace).reverse).asString

/-- The `(content, is_final)` pairs of the `content` events emitted for a
terminal assistant reply (`chat_server.py:266-277`): split on `。`, skip
pieces that are empty after stripping, re-append `。` to every piece except
the last, and set `is_final` exactly when the piece index equals
`len(sentences) - 1`. -/
def contentChunks (content : String) : List (String × Bool) :=
  let sentences := splitSentences content
  let n := sentences.length
  sentences.enum.filterMap fun p =>
    if pyStrip p.2 = "" then Option.none
    else some (p.2 ++ (if p.1 < n - 1 then "。" else ""), p.1 == n - 1)

/-- One candidate assistant turn returned by `tool_chat.invoke`:
textual content plus the requested tool calls. -/
structure ModelReply where
  content : String
  toolCalls : List ToolCall
deriving Repr, DecidableEq

/-- The model gateway: `tool_chat.invoke(messages)` either returns a reply
or raises (network failure, no model bound, ...), modelled as an error
message. -/
abbrev Model := List Msg → Except String ModelReply

/-- `process_streaming_response` (`chat_server.py:201-300`), with the loop
round count as explicit fuel.  Result: the emitted events, the final
process state, and the terminal assistant content (`Option.none` when the
fuel ran out with the loop still requesting rounds, i.e. the `while True`
loop is still running).  An exception from the model invocation is caught
by the handler at `chat_server.py:294-300`, which emits a single `error`
event and ends the stream; there is no round ceiling anywhere in the loop
and no `MaxRoundsExceeded` condition in the repository. -/
def processStream (model : Model) (sessionId : Option String) :
    Nat → AppState → List Msg → List Event × AppState × Option String
  | 0, st, _ => ([], st, Option.none)
  | fuel + 1, st, msgs =>
    match model msgs with
    | Except.error e => ([Event.error e], st, Option.none)
    | Except.ok reply =>
      if reply.toolCalls.isEmpty then
        let contentEvts := (contentChunks reply.content).map fun p => Event.content p.1 p.2
        let st1 :=
          match sessionId with
          | some sid => (addMessage st sid "assistant" reply.content Option.none).2
          | Option.none => st
        (contentEvts ++ [Event.done "stop" sessionId], st1, some reply.content)
      else
        let thinkEvts :=
          if reply.content ≠ "" then [Event.thinking reply.content reply.toolCalls] else []
        let r := executeToolCalls st reply.toolCalls
        let emitEvts := roundEvents reply.toolCalls r.1
        let msgs1 := msgs ++ [Msg.ai reply.content reply.toolCalls]
            ++ r.1.map fun tm => Msg.tool tm.content tm.toolCallId
        let rest := processStream model sessionId fuel r.2 msgs1
        (thinkEvts ++ emitEvts ++ rest.1, rest.2)

/-- One entry of the inbound `messages` array of a chat request. -/
structure ReqMessage where
  role : String
  content : String
deriving Repr, DecidableEq

/-- The claim-relevant fields of the inbound `/chat` request. -/
structure ChatRequest where
  messages : List ReqMessage
  systemPrompt : String
  useMemory : Bool
deriving Repr, DecidableEq

/-- `convert_messages` (`chat_server.py:177-199`): system prompt, then the
last 20 persisted user/assistant turns of the bound session, then the
request messages. -/
def convertMessages (st : AppState) (chatMessages : List ReqMessage)
    (systemPrompt : String) (sessionId : Option String) : List Msg :=
  let hist :=
    match sessionId with
    | Option.none => []
    | some sid =>
      (getMessages st sid (some 20)).filterMap fun m =>
        if m.role = "user" then some (Msg.human m.content)
        else if m.role = "assistant" then some (Msg.ai m.content [])
        else Option.none
  let cur := chatMessages.filterMap fun m =>
    if m.role = "user" then some (Msg.human m.content)
    else if m.role = "assistant" then some (Msg.ai m.content [])
    else if m.role = "system" then some (Msg.system m.content)
    else Option.none
  [Msg.system systemPrompt] ++ hist ++ cur

/-- `chat_endpoint` saving the inbound user messages to the bound session
(`chat_server.py:370-374`). -/
def saveUserMessages (st : AppState) (sid : String) (msgs : List ReqMessage) :
    AppState :=
  msgs.foldl
    (fun acc m =>
      if m.role = "user" then (addMessage acc sid "user" m.content Option.none).2 else acc)
    st

/-- The streaming branch of `chat_endpoint` for a request bound to session
`sid` (`chat_server.py:362-392`): persist the inbound user messages, convert
to the LangChain message list, then run `process_streaming_response`. -/
def chatStreamRun (model : Model) (st : AppState) (req : ChatRequest)
    (sid : String) (fuel : Nat) : List Event × AppState × Option String :=
  let st1 := saveUserMessages st sid req.messages
  let msgs := convertMessages st1 req.messages req.systemPrompt
      (if req.useMemory then some sid else Option.none)
  processStream model (some sid) fuel st1 msgs

/-- The non-streaming `ChatResponse` (`chat_server.py:409-413`). -/
structure NonStreamResult where
  content : String
  toolCalls : List ToolCall
  finishReason : String
deriving Repr, DecidableEq

/-- The non-streaming branch of `chat_endpoint` (`chat_server.py:393-416`):
a single `tool_chat.invoke(messages)` — no loop, no tool execution — whose
content and raw `tool_calls` list are returned, the assistant content being
persisted to the bound session; a model exception becomes an HTTP error. -/
def chatNonStreaming (model : Model) (st : AppState) (sessionId : Option String)
    (msgs : List Msg) : Except String NonStreamResult × AppState :=
  match model msgs with
  | Except.error e => (Except.error e, st)
  | Except.ok reply =>
    let st1 :=
      match sessionId with
      | some sid => (addMessage st sid "assistant" reply.content (some reply.toolCalls)).2
      | Option.none => st
    (Except.ok { content := reply.content, toolCalls := reply.toolCalls,
                 finishReason := "stop" }, st1)

/-- Number of `tool_result` events in an event list. -/
def countToolResults (evts : List Event) : Nat :=
  (evts.filter Event.isToolResult).length

/-- Number of `error` events in an event list. -/
def countErrors (evts : List Event) : Nat :=
  (evts.filter Event.isError).length

/-- Number of `done` events in an event list. -/
def countDone (evts : List Event) : Nat :=
  (evts.filter Event.isDone).length

/-- Number of inbound messages with role `user` in a chat request —
exactly the ones `chat_endpoint` persists before streaming. -/
def numUserMsgs (req : ChatRequest) : Nat :=
  (req.messages.filter fun m => m.role == "user").length

/-! Concrete requests, tool calls, model stubs and states used by the
counterexamples and witnesses. -/

/-- A well-formed `add` tool call. -/
def addCall : ToolCall :=
  { id := "a1", name := "add", args := [("a", PyValue.num 1), ("b", PyValue.num 2)] }

/-- A well-formed `multiply` tool call. -/
def multiplyCall : ToolCall :=
  { id := "m1", name := "multiply", args := [("a", PyValue.num 2), ("b", PyValue.num 3)] }

/-- A tool call whose name matches no registered tool. -/
def unknownCall : ToolCall := { id := "u1", name := "nonexistent_tool", args := [] }

/-- A `divide` call with divisor 0 — a registered tool whose invocation
fails (`tool_manager.py:115-116`). -/
def divideCallZ : ToolCall :=
  { id := "d1", name := "divide", args := [("a", PyValue.num 1), ("b", PyValue.num 0)] }

/-- A model stub that always requests one tool call (the claimed
`MaxRoundsExceeded` test scenario). -/
def alwaysToolModel : Model :=
  fun _ => Except.ok { content := "", toolCalls := [addCall] }

/-- A model stub that always requests the unknown tool. -/
def unknownStubModel : Model :=
  fun _ => Except.ok { content := "", toolCalls := [unknownCall] }

/-- A model stub that always requests the failing `divide` call. -/
def divideStubModel : Model :=
  fun _ => Except.ok { content := "", toolCalls := [divideCallZ] }

/-- A call whose name carries the role prefix but designates no registered
persona: absent from the registry, yet routed to the role proxy. -/
def bogusRoleCall : ToolCall := { id := "b1", name := "call_role_bogus", args := [] }

/-- A model stub that always requests the bogus role tool. -/
def bogusRoleStubModel : Model :=
  fun _ => Except.ok { content := "", toolCalls := [bogusRoleCall] }

/-- A call to the registered `programmer` role tool with a non-empty
message — a registered tool whose invocation fails (the `TypeError` of the
broken lazy context creation). -/
def progRoleCall : ToolCall :=
  { id := "r1", name := "call_role_programmer", args := [("message", PyValue.str "hi")] }

/-- A model stub that always requests the failing `programmer` role call. -/
def progRoleStubModel : Model :=
  fun _ => Except.ok { content := "", toolCalls := [progRoleCall] }

/-- A model stub that immediately answers with no tool calls. -/
def plainReplyModel : Model :=
  fun _ => Except.ok { content := "你好", toolCalls := [] }

/-- Whether the message list already holds a tool turn. -/
def hasToolMsg (msgs : List Msg) : Bool :=
  msgs.any fun m =>
    match m with
    | Msg.tool _ _ => true
    | _ => false

/-- A two-round model stub: first reply requests `add` with some thinking
content, the reply after seeing a tool turn is final. -/
def twoRoundModel : Model :=
  fun msgs =>
    if hasToolMsg msgs then Except.ok { content := "最终回答", toolCalls := [] }
    else Except.ok { content := "先想想", toolCalls := [addCall] }

/-- A process state holding one empty session `s1`. -/
def stOneSession : AppState :=
  { initState with sessions :=
      [("s1", { sessionId := "s1", messages := [], systemPrompt := "sys" })] }

/-- A streamed chat request carrying one user message, bound to memory. -/
def reqOneUser : ChatRequest :=
  { messages := [{ role := "user", content := "算一下" }],
    systemPrompt := "sys", useMemory := true }

/-- A persisted user record, for the capacity witness. -/
def recUser : ChatMessageRec := { role := "user", content := "x", toolCalls := Option.none }

/-- A process state holding one session already at the 100-message cap. -/
def stFullSession : AppState :=
  { initState with sessions :=
      [("sf", { sessionId := "sf", messages := List.replicate 100 recUser,
                systemPrompt := "" })] }

/-! Helper lemmas about the embedded operations. -/

theorem executeToolCallsGo_fst_length :
    ∀ (calls : List ToolCall) (st : AppState) (step : Nat),
      (executeToolCallsGo st step calls).1.length = calls.length := by
  intro calls
  induction calls with
  | nil => intro st step; rfl
  | cons tc rest ih =>
    intro st step
    simp only [executeToolCallsGo, List.length_cons]
    rw [ih]

theorem executeToolCalls_fst_length (st : AppState) (calls : List ToolCall) :
    (executeToolCalls st calls).1.length = calls.length :=
  executeToolCallsGo_fst_length calls st 1

theorem executeToolCallsGo_trace_exec :
    ∀ (calls : List ToolCall) (st : AppState) (step : Nat) (a : Action),
      a ∈ (executeToolCallsGo st step calls).2.1 → a.isExecB = true := by
  intro calls
  induction calls with
  | nil => intro st step a h; simp [executeToolCallsGo] at h
  | cons tc rest ih =>
    intro st step a h
    simp only [executeToolCallsGo, List.mem_cons] at h
    rcases h with h | h
    · subst h; rfl
    · exact ih _ _ a h

theorem countErrors_append (a b : List Event) :
    countErrors (a ++ b) = countErrors a + countErrors b := by
  simp [countErrors, List.filter_append]

theorem countDone_append (a b : List Event) :
    countDone (a ++ b) = countDone a + countDone b := by
  simp [countDone, List.filter_append]

theorem countErrors_eq_zero (l : List Event) (h : ∀ e ∈ l, e.isError = false) :
    countErrors l = 0 := by
  unfold countErrors
  have hf : l.filter Event.isError = [] := by
    rw [List.filter_eq_nil_iff]
    intro a ha
    simp [h a ha]
  rw [hf]
  rfl

theorem countDone_eq_zero (l : List Event) (h : ∀ e ∈ l, e.isDone = false) :
    countDone l = 0 := by
  unfold countDone
  have hf : l.filter Event.isDone = [] := by
    rw [List.filter_eq_nil_iff]
    intro a ha
    simp [h a ha]
  rw [hf]
  rfl

theorem roundEvents_no_error (calls : List ToolCall) (tms : List ToolMsg) :
    countErrors (roundEvents calls tms) = 0 := by
  apply countErrors_eq_zero
  intro e he
  simp only [roundEvents, List.mem_map] at he
  obtain ⟨p, _, rfl⟩ := he
  rfl

theorem roundEvents_no_done (calls : List ToolCall) (tms : List ToolMsg) :
    countDone (roundEvents calls tms) = 0 := by
  apply countDone_eq_zero
  intro e he
  simp only [roundEvents, List.mem_map] at he
  obtain ⟨p, _, rfl⟩ := he
  rfl

theorem ensureUserEntry_sessions (st : AppState) (u : String) :
    (ensureUserEntry st u).sessions = st.sessions := by
  unfold ensureUserEntry
  split <;> rfl

theorem roleModelSwitch_sessions (st : AppState) (t : Option String) :
    (roleModelSwitch st t).sessions = st.sessions := by
  unfold roleModelSwitch
  split
  · rfl
  · split
    · split <;> rfl
    · rfl

theorem getOrCreateRoleContext_sessions (st : AppState) (r u : String) :
    ((getOrCreateRoleContext st r u).2).sessions = st.sessions := by
  unfold getOrCreateRoleContext
  cases h1 : lookupRoleContext (ensureUserEntry st u) u r with
  | some ctx => simp [h1, ensureUserEntry_sessions]
  | none =>
    cases h2 : getRole (ensureUserEntry st u) r with
    | none => simp [h1, h2, ensureUserEntry_sessions]
    | some role => simp [h1, h2, ensureUserEntry_sessions]

theorem callRoleFunction_sessions (st : AppState) (fn : String) (args : Args) :
    ((callRoleFunction st fn args).2).sessions = st.sessions := by
  unfold callRoleFunction
  cases h0 : strStartsWith fn "call_role_" with
  | false => simp [h0]
  | true =>
    cases h1 : getRole st (strDrop fn 10) with
    | none => simp [h0, h1]
    | some role =>
      by_cases h2 : argStr args "message" "" = ""
      · simp [h0, h1, h2]
      · have hg := getOrCreateRoleContext_sessions st (strDrop fn 10)
            (argStr args "user_id" "default_user")
        cases h3 : getOrCreateRoleContext st (strDrop fn 10)
            (argStr args "user_id" "default_user") with
        | mk exc st1 =>
          rw [h3] at hg
          cases exc with
          | error e =>
            simp [h0, h1, h2, h3]
            exact hg
          | ok ctx =>
            simp [h0, h1, h2, h3, chatWithModel, roleModelSwitch_sessions]
            exact hg

theorem executeTool_sessions (st : AppState) (tc : ToolCall) :
    ((executeTool st tc).2).sessions = st.sessions := by
  unfold executeTool
  split
  · exact callRoleFunction_sessions st tc.name tc.args
  · split
    · rfl
    · split <;> rfl

theorem executeToolCallsGo_sessions :
    ∀ (calls : List ToolCall) (st : AppState) (step : Nat),
      ((executeToolCallsGo st step calls).2.2).sessions = st.sessions := by
  intro calls
  induction calls with
  | nil => intro st step; rfl
  | cons tc rest ih =>
    intro st step
    simp only [executeToolCallsGo]
    rw [ih]
    exact executeTool_sessions st tc

theorem executeToolCalls_sessions (st : AppState) (calls : List ToolCall) :
    ((executeToolCalls st calls).2).sessions = st.sessions :=
  executeToolCallsGo_sessions calls st 1

theorem lookup_setSession :
    ∀ (sessions : List (String × ChatSession)) (sid : String) (s s2 : ChatSession),
      List.lookup sid sessions = some s →
      List.lookup sid (setSession sessions sid s2) = some s2 := by
  intro sessions
  induction sessions with
  | nil => intro sid s s2 h; simp [List.lookup] at h
  | cons p rest ih =>
    intro sid s s2 h
    obtain ⟨k, v⟩ := p
    by_cases hk : k = sid
    · subst hk
      have hhead : setSession ((k, v) :: rest) k s2 = (k, s2) :: setSession rest k s2 := by
        simp [setSession]
      rw [hhead]
      simp [List.lookup]
    · have hk1 : (sid == k) = false := by simp [Ne.symm hk]
      simp only [List.lookup, hk1] at h
      have hhead : setSession ((k, v) :: rest) sid s2 = (k, v) :: setSession rest sid s2 := by
        simp [setSession, hk]
      rw [hhead]
      simp only [List.lookup, hk1]
      exact ih sid s s2 h

theorem cappedAppend_eq_drop (msgs : List ChatMessageRec) (m : ChatMessageRec) :
    cappedAppend msgs m = (msgs ++ [m]).drop ((msgs ++ [m]).length - 100) := by
  unfold cappedAppend
  split
  · rfl
  · next hle =>
    have hz : (msgs ++ [m]).length - 100 = 0 := by omega
    rw [hz, List.drop_zero]

theorem cappedAppend_length (msgs : List ChatMessageRec) (m : ChatMessageRec) :
    (cappedAppend msgs m).length = min (msgs.length + 1) 100 := by
  rw [cappedAppend_eq_drop, List.length_drop]
  simp only [List.length_append, List.length_cons, List.length_nil]
  omega

theorem cappedAppend_nocap (msgs : List ChatMessageRec) (m : ChatMessageRec)
    (hcap : msgs.length + 1 ≤ 100) : cappedAppend msgs m = msgs ++ [m] := by
  rw [cappedAppend_eq_drop]
  have hz : (msgs ++ [m]).length - 100 = 0 := by
    simp only [List.length_append, List.length_cons, List.length_nil]
    omega
  rw [hz, List.drop_zero]

theorem addMessage_lookup (st : AppState) (sid role content : String)
    (tcs : Option (List ToolCall)) (s : ChatSession)
    (hs : lookupSession st sid = some s) :
    lookupSession (addMessage st sid role content tcs).2 sid
      = some { s with messages :=
          cappedAppend s.messages { role := role, content := content, toolCalls := tcs } } := by
  simp only [addMessage, hs]
  exact lookup_setSession st.sessions sid s _ hs

theorem addMessage_nocap (st : AppState) (sid role content : String)
    (tcs : Option (List ToolCall)) (s : ChatSession)
    (hs : lookupSession st sid = some s) (hcap : s.messages.length + 1 ≤ 100) :
    lookupSession (addMessage st sid role content tcs).2 sid
      = some { s with messages :=
          s.messages ++ [{ role := role, content := content, toolCalls := tcs }] } := by
  have h := addMessage_lookup st sid role content tcs s hs
  rw [cappedAppend_nocap _ _ hcap] at h
  exact h

theorem saveUserMessages_count :
    ∀ (msgs : List ReqMessage) (st : AppState) (sid : String) (s : ChatSession),
      lookupSession st sid = some s →
      s.messages.length + (msgs.filter fun m => m.role == "user").length ≤ 100 →
      ∃ s2, lookupSession (saveUserMessages st sid msgs) sid = some s2 ∧
        s2.messages.length
          = s.messages.length + (msgs.filter fun m => m.role == "user").length := by
  intro msgs
  induction msgs with
  | nil =>
    intro st sid s hs _
    exact ⟨s, by simpa [saveUserMessages] using hs, by simp⟩
  | cons m rest ih =>
    intro st sid s hs hcap
    by_cases hu : m.role = "user"
    · have hb : (m.role == "user") = true := by simp [hu]
      have hfc : ((m :: rest).filter fun x => x.role == "user")
          = m :: (rest.filter fun x => x.role == "user") := by
        simp [List.filter_cons, hb]
      rw [hfc] at hcap ⊢
      simp only [List.length_cons] at hcap
      have hlen1 : s.messages.length + 1 ≤ 100 := by omega
      have hadd := addMessage_nocap st sid "user" m.content Option.none s hs hlen1
      have hstep : saveUserMessages st sid (m :: rest)
          = saveUserMessages ((addMessage st sid "user" m.content Option.none).2) sid rest := by
        simp [saveUserMessages, hu]
      rw [hstep]
      obtain ⟨s2, h2, hlen2⟩ := ih _ sid _ hadd (by
        simp only [List.length_append, List.length_cons, List.length_nil]
        omega)
      refine ⟨s2, h2, ?_⟩
      rw [hlen2]
      simp only [List.length_append, List.length_cons, List.length_nil]
      omega
    · have hb : (m.role == "user") = false := by simp [hu]
      have hfc : ((m :: rest).filter fun x => x.role == "user")
          = rest.filter fun x => x.role == "user" := by
        simp [List.filter_cons, hb]
      rw [hfc] at hcap ⊢
      have hstep : saveUserMessages st sid (m :: rest) = saveUserMessages st sid rest := by
        simp [saveUserMessages, hu]
      rw [hstep]
      exact ih st sid s hs hcap

theorem processStream_terminal_count (model : Model) (sid : String) :
    ∀ (fuel : Nat) (st : AppState) (msgs : List Msg) (s : ChatSession) (c : String),
      lookupSession st sid = some s →
      s.messages.length + 1 ≤ 100 →
      (processStream model (some sid) fuel st msgs).2.2 = some c →
      sessionMsgCount (processStream model (some sid) fuel st msgs).2.1 sid
        = s.messages.length + 1 := by
  intro fuel
  induction fuel with
  | zero =>
    intro st msgs s c hs hcap hterm
    simp [processStream] at hterm
  | succ n ih =>
    intro st msgs s c hs hcap hterm
    cases hm : model msgs with
    | error e => simp [processStream, hm] at hterm
    | ok reply =>
      by_cases he : reply.toolCalls.isEmpty = true
      · have hadd := addMessage_nocap st sid "assistant" reply.content Option.none s hs hcap
        simp only [processStream, hm, he, if_true]
        simp [sessionMsgCount, hadd]
      · have he2 : reply.toolCalls.isEmpty = false := by simpa using he
        have hsess := executeToolCalls_sessions st reply.toolCalls
        have hs2 : lookupSession (executeToolCalls st reply.toolCalls).2 sid = some s := by
          unfold lookupSession at hs ⊢
          rw [hsess]
          exact hs
        simp only [processStream, hm, he2, Bool.false_eq_true, if_false] at hterm ⊢
        exact ih _ _ s c hs2 hcap hterm

theorem isPrefixOf_append_self (l t : List Char) : l.isPrefixOf (l ++ t) = true := by
  induction l with
  | nil => simp [List.isPrefixOf]
  | cons c cs ih => simp [List.isPrefixOf, ih]

theorem strStartsWith_append (a b : String) : strStartsWith (a ++ b) a = true := by
  have hd : (a ++ b).toList = a.toList ++ b.toList := by
    cases a with
    | mk da =>
      cases b with
      | mk db => rfl
  unfold strStartsWith
  rw [hd]
  exact isPrefixOf_append_self _ _

/-! Claim theorems. -/

/-- C1: the role-proxy tool can never return the success record.  Every call
to `call_role_function` returns `{error, success=False}`: on first use of a
(user, role) pair, `_get_or_create_role_context` calls
`SessionManager.create_session` with a `role_id` keyword the method does not
accept (TypeError), and even a pre-existing context would hit the
nonexistent `ModelManager.chat_with_model` (AttributeError).  In particular
the call the repository's own test exercises — persona `programmer`, a
non-empty message, user `test_user` — fails with the `TypeError` text,
contradicting the claimed `{roleName, roleId, response, modelUsed,
contextLength, success=true}` record. -/
theorem callRoleFunction_never_succeeds :
    (∀ (st : AppState) (fn : String) (args : Args),
      List.lookup "success" (callRoleFunction st fn args).1
        = some (PyValue.boolean false)) ∧
    (callRoleFunction initState "call_role_programmer"
        [("message", PyValue.str "请用Python写一个简单的计算器函数"),
         ("user_id", PyValue.str "test_user")]).1
      = roleFailure createSessionRoleIdTypeError := by
  constructor
  · intro st fn args
    unfold callRoleFunction
    cases h0 : strStartsWith fn "call_role_" with
    | false => simp [h0, roleFailure]; rfl
    | true =>
      cases h1 : getRole st (strDrop fn 10) with
      | none => simp [h0, h1, roleFailure]; rfl
      | some role =>
        by_cases h2 : argStr args "message" "" = ""
        · simp [h0, h1, h2, roleFailure]; rfl
        · cases h3 : getOrCreateRoleContext st (strDrop fn 10)
              (argStr args "user_id" "default_user") with
          | mk exc st1 =>
            cases exc with
            | error e => simp [h0, h1, h2, h3, roleFailure]; rfl
            | ok ctx => simp [h0, h1, h2, h3, chatWithModel, roleFailure]; rfl
  · decide

/-- C2 counterexample: the loop has no round bound.  With a model stub that
always requests a tool call, after 2 rounds — and still after 3 — the loop
has not stopped and has emitted zero `error` events, refuting "with max
rounds = 2 the loop stops after round 2 with exactly one error event of kind
MaxRoundsExceeded". -/
theorem processStream_no_max_rounds_cex :
    (processStream alwaysToolModel Option.none 2 initState [Msg.system "你好"]).2.2
        = Option.none ∧
    countErrors
      (processStream alwaysToolModel Option.none 2 initState [Msg.system "你好"]).1 = 0 ∧
    (processStream alwaysToolModel Option.none 3 initState [Msg.system "你好"]).2.2
        = Option.none ∧
    countErrors
      (processStream alwaysToolModel Option.none 3 initState [Msg.system "你好"]).1 = 0 := by
  refine ⟨?_, ?_, ?_, ?_⟩ <;> rfl

/-- C2 amended: the orchestration loop enforces no maximum round count and
knows no `MaxRoundsExceeded` condition: for every model that keeps
requesting tool calls, after any number of rounds the loop is still running
and has emitted no `error` and no `done` event; it terminates only when a
reply carries no tool calls, or when an exception is raised (which yields
one generic `error` event carrying the exception text). -/
theorem processStream_unbounded (model : Model)
    (halways : ∀ msgs, ∃ r, model msgs = Except.ok r ∧ r.toolCalls ≠ []) :
    ∀ (fuel : Nat) (st : AppState) (sid : Option String) (msgs : List Msg),
      (processStream model sid fuel st msgs).2.2 = Option.none ∧
      countErrors (processStream model sid fuel st msgs).1 = 0 ∧
      countDone (processStream model sid fuel st msgs).1 = 0 := by
  intro fuel
  induction fuel with
  | zero => intro st sid msgs; exact ⟨rfl, rfl, rfl⟩
  | succ n ih =>
    intro st sid msgs
    obtain ⟨r, hm, hne⟩ := halways msgs
    have he : r.toolCalls.isEmpty = false := by
      cases h : r.toolCalls with
      | nil => exact absurd h hne
      | cons a l => rfl
    have hthE : countErrors
        (if r.content ≠ "" then [Event.thinking r.content r.toolCalls] else []) = 0 := by
      split <;> rfl
    have hthD : countDone
        (if r.content ≠ "" then [Event.thinking r.content r.toolCalls] else []) = 0 := by
      split <;> rfl
    simp only [processStream, hm, he, Bool.false_eq_true, if_false]
    obtain ⟨ih1, ih2, ih3⟩ := ih (executeToolCalls st r.toolCalls).2 sid
        (msgs ++ [Msg.ai r.content r.toolCalls]
          ++ (executeToolCalls st r.toolCalls).1.map fun tm => Msg.tool tm.content tm.toolCallId)
    refine ⟨ih1, ?_, ?_⟩
    · rw [countErrors_append, countErrors_append, hthE, roundEvents_no_error, ih2]
    · rw [countDone_append, countDone_append, hthD, roundEvents_no_done, ih3]

/-- C2 witness: the hypotheses hold for the always-tool-call stub, and the
conclusion holds at fuel 1 on a concrete state. -/
theorem processStream_unbounded_witness :
    (∀ msgs, ∃ r, alwaysToolModel msgs = Except.ok r ∧ r.toolCalls ≠ []) ∧
    ((processStream alwaysToolModel Option.none 1 initState [Msg.system "s"]).2.2
        = Option.none ∧
     countErrors
       (processStream alwaysToolModel Option.none 1 initState [Msg.system "s"]).1 = 0 ∧
     countDone
       (processStream alwaysToolModel Option.none 1 initState [Msg.system "s"]).1 = 0) :=
  ⟨fun _ => ⟨{ content := "", toolCalls := [addCall] }, rfl, by decide⟩,
   processStream_unbounded alwaysToolModel
     (fun _ => ⟨{ content := "", toolCalls := [addCall] }, rfl, by decide⟩)
     1 initState Option.none [Msg.system "s"]⟩

/-- C3: in a round with N requested tool calls, exactly N `tool_result`
events are emitted, in the model's request order, the i-th (0-based)
carrying the i-th call's name and arguments, `step = i + 1`, and
`total_steps = N`. -/
theorem roundEvents_indexed (st : AppState) (calls : List ToolCall)
    (i : Nat) (h : i < calls.length) :
    (roundEvents calls (executeToolCalls st calls).1).length = calls.length ∧
    ∃ r, (roundEvents calls (executeToolCalls st calls).1).get? i
      = some (Event.toolResult (calls.get ⟨i, h⟩).name (calls.get ⟨i, h⟩).args r
          (i + 1) calls.length) := by
  have hlen := executeToolCalls_fst_length st calls
  constructor
  · simp [roundEvents, List.length_zip, hlen]
  · have hc : calls.get? i = some (calls.get ⟨i, h⟩) := List.get?_eq_get h
    have hi2 : i < (executeToolCalls st calls).1.length := by rw [hlen]; exact h
    have ht : (executeToolCalls st calls).1.get? i
        = some ((executeToolCalls st calls).1.get ⟨i, hi2⟩) := List.get?_eq_get hi2
    refine ⟨((executeToolCalls st calls).1.get ⟨i, hi2⟩).content, ?_⟩
    have hzip : ((calls.zip (executeToolCalls st calls).1)).get? i
        = some (calls.get ⟨i, h⟩, (executeToolCalls st calls).1.get ⟨i, hi2⟩) :=
      (List.get?_zip_eq_some _ _ _ i).mpr ⟨hc, ht⟩
    unfold roundEvents
    rw [List.get?_map, List.get?_enum, hzip]
    simp only [Option.map_some', hlen]

/-- C3 witness: instantiated at two concrete calls and index 1. -/
theorem roundEvents_indexed_witness :
    (roundEvents [addCall, unknownCall]
        (executeToolCalls initState [addCall, unknownCall]).1).length = 2 ∧
    ∃ r, (roundEvents [addCall, unknownCall]
        (executeToolCalls initState [addCall, unknownCall]).1).get? 1
      = some (Event.toolResult (([addCall, unknownCall]).get ⟨1, by decide⟩).name
          (([addCall, unknownCall]).get ⟨1, by decide⟩).args r 2 2) :=
  roundEvents_indexed initState [addCall, unknownCall] 1 (by decide)

/-- C4 counterexample: emission is buffered, not progressive.  In a round
with two calls the effect order is exec 1, exec 2, emit 1, emit 2: the first
`tool_result` emission (position 2) comes after the second tool's execution
(position 1), refuting "the i-th event is emitted before the (i+1)-th tool
executes". -/
theorem roundTrace_buffered_cex :
    roundTrace initState [addCall, multiplyCall]
      = [Action.exec 1 "add", Action.exec 2 "multiply",
         Action.emit 1 "add", Action.emit 2 "multiply"] ∧
    (roundTrace initState [addCall, multiplyCall]).findIdx Action.isEmitB = 2 ∧
    (roundTrace initState [addCall, multiplyCall]).findIdx
        (fun a => a == Action.exec 2 "multiply") = 1 ∧
    ¬ ((roundTrace initState [addCall, multiplyCall]).findIdx Action.isEmitB
        < (roundTrace initState [addCall, multiplyCall]).findIdx
            (fun a => a == Action.exec 2 "multiply")) := by
  refine ⟨?_, ?_, ?_, ?_⟩ <;> decide

/-- C4 amended: within one round every tool execution happens before every
`tool_result` emission — `execute_tool_calls` runs all N tools to
completion (in request order) and only then the event loop flushes the N
events (in the same order). -/
theorem roundTrace_execs_before_emits (st : AppState) (calls : List ToolCall)
    (p q sp sq : Nat) (np nq : String)
    (hp : (roundTrace st calls).get? p = some (Action.exec sp np))
    (hq : (roundTrace st calls).get? q = some (Action.emit sq nq)) :
    p < q := by
  unfold roundTrace at hp hq
  by_cases hplen : p < (executeToolCallsGo st 1 calls).2.1.length
  · by_cases hqlen : q < (executeToolCallsGo st 1 calls).2.1.length
    · exfalso
      rw [List.get?_append hqlen] at hq
      have hall := executeToolCallsGo_trace_exec calls st 1 _ (List.get?_mem hq)
      simp [Action.isExecB] at hall
    · omega
  · exfalso
    push_neg at hplen
    rw [List.get?_append_right hplen] at hp
    have hmem := List.get?_mem hp
    simp only [List.mem_map] at hmem
    obtain ⟨x, _, hxx⟩ := hmem
    simp at hxx

/-- C4 witness: the amended ordering at concrete positions. -/
theorem roundTrace_execs_before_emits_witness :
    (roundTrace initState [addCall, multiplyCall]).get? 0 = some (Action.exec 1 "add") ∧
    (roundTrace initState [addCall, multiplyCall]).get? 2 = some (Action.emit 1 "add") ∧
    (0 : Nat) < 2 :=
  ⟨by decide, by decide,
   roundTrace_execs_before_emits initState [addCall, multiplyCall] 0 2 1 1 "add" "add"
     (by decide) (by decide)⟩

/-- C5 counterexample: the tool-turn content for an unknown tool name is the
Chinese `"错误: 未找到工具: <name>"`, not the claimed
`"Tool <name> not found"`. -/
theorem unknownTool_content_cex :
    (executeToolCalls initState [unknownCall]).1
      = [{ content := "错误: 未找到工具: nonexistent_tool", toolCallId := "u1" }] ∧
    "错误: 未找到工具: nonexistent_tool" ≠ "Tool nonexistent_tool not found" := by
  constructor
  · decide
  · decide

/-- C5 amended: a requested name absent from the registry produces an error
Tool turn, never an orchestrator-level exception (`execute_tool` catches
everything), and the loop continues — the next round runs on the message
list extended with the assistant turn and that error Tool turn.  The
content is `"错误: 未找到工具: <name>"` when the name is not routed by the
`call_role_` name prefix, and `"错误: 角色不存在: <id>"` when the name is
`call_role_<id>` with `<id>` not a registered persona — never
`"Tool <name> not found"`. -/
theorem unknownTool_error_turn (st : AppState) (nm : String) (args : Args)
    (cid : String) (model : Model) (sid : Option String) (fuel : Nat) (msgs : List Msg)
    (ect : String)
    (h1 : mathCanHandle nm = false) (h2 : searchCanHandle nm = false)
    (h3 : strStartsWith nm "call_role_" = true → getRole st (strDrop nm 10) = Option.none)
    (hct : ect = if strStartsWith nm "call_role_"
        then "错误: 角色不存在: " ++ strDrop nm 10
        else "错误: 未找到工具: " ++ nm)
    (hm : model msgs
      = Except.ok { content := "", toolCalls := [{ id := cid, name := nm, args := args }] }) :
    processStream model sid (fuel + 1) st msgs
      = (Event.toolResult nm args ect 1 1
           :: (processStream model sid fuel st
                (msgs ++ [Msg.ai "" [{ id := cid, name := nm, args := args }]]
                  ++ [Msg.tool ect cid])).1,
         (processStream model sid fuel st
            (msgs ++ [Msg.ai "" [{ id := cid, name := nm, args := args }]]
              ++ [Msg.tool ect cid])).2) := by
  cases h0 : strStartsWith nm "call_role_" with
  | false =>
    have hect : ect = "错误: 未找到工具: " ++ nm := by
      rw [hct]
      simp [h0]
    have hassoc : "错误: 未找到工具: " ++ nm = "错误: " ++ ("未找到工具: " ++ nm) := by
      rw [show ("错误: 未找到工具: ") = "错误: " ++ "未找到工具: " from rfl,
        String.append_assoc]
    have hexec : executeToolCalls st [{ id := cid, name := nm, args := args }]
        = ([{ content := "错误: 未找到工具: " ++ nm, toolCallId := cid }], st) := by
      rw [hassoc]
      simp [executeToolCalls, executeToolCallsGo, executeTool, h0, h1, h2,
        resultContent, List.lookup, PyValue.pystr]
    rw [hect]
    simp only [processStream, hm, List.isEmpty_cons, Bool.false_eq_true, if_false, hexec]
    simp [roundEvents]
  | true =>
    have hrole := h3 h0
    have hect : ect = "错误: 角色不存在: " ++ strDrop nm 10 := by
      rw [hct]
      simp [h0]
    have hassoc : "错误: 角色不存在: " ++ strDrop nm 10
        = "错误: " ++ ("角色不存在: " ++ strDrop nm 10) := by
      rw [show ("错误: 角色不存在: ") = "错误: " ++ "角色不存在: " from rfl,
        String.append_assoc]
    have hexec : executeToolCalls st [{ id := cid, name := nm, args := args }]
        = ([{ content := "错误: 角色不存在: " ++ strDrop nm 10, toolCallId := cid }], st) := by
      rw [hassoc]
      simp [executeToolCalls, executeToolCallsGo, executeTool, callRoleFunction, h0, hrole,
        roleFailure, resultContent, List.lookup, PyValue.pystr]
    rw [hect]
    simp only [processStream, hm, List.isEmpty_cons, Bool.false_eq_true, if_false, hexec]
    simp [roundEvents]

/-- C5 witness: the amended behaviour at both concrete absent names — a
plain unknown tool, and a `call_role_`-prefixed name whose persona is not
registered. -/
theorem unknownTool_error_turn_witness :
    mathCanHandle "nonexistent_tool" = false ∧
    searchCanHandle "nonexistent_tool" = false ∧
    processStream unknownStubModel Option.none 1 initState [Msg.system "s"]
      = ([Event.toolResult "nonexistent_tool" [] "错误: 未找到工具: nonexistent_tool" 1 1],
         initState, Option.none) ∧
    mathCanHandle "call_role_bogus" = false ∧
    searchCanHandle "call_role_bogus" = false ∧
    getRole initState "bogus" = Option.none ∧
    processStream bogusRoleStubModel Option.none 1 initState [Msg.system "s"]
      = ([Event.toolResult "call_role_bogus" [] "错误: 角色不存在: bogus" 1 1],
         initState, Option.none) := by
  refine ⟨by decide, by decide, ?_, by decide, by decide, by decide, ?_⟩
  · have h := unknownTool_error_turn initState "nonexistent_tool" [] "u1" unknownStubModel
        Option.none 0 [Msg.system "s"] "错误: 未找到工具: nonexistent_tool"
        (by decide) (by decide) (fun hpre => absurd hpre (by decide)) (by decide) rfl
    rw [h]
    rfl
  · have h := unknownTool_error_turn initState "call_role_bogus" [] "b1" bogusRoleStubModel
        Option.none 0 [Msg.system "s"] "错误: 角色不存在: bogus"
        (by decide) (by decide) (fun _ => by decide) (by decide) rfl
    rw [h]
    rfl

/-- C6 counterexample: the tool-turn content for a failing registered tool
(`divide` with divisor 0) is `"错误: 除数不能为零"`: it does not start with
`"Error executing divide"` and does not carry the tool name at all. -/
theorem failingTool_content_cex :
    (executeToolCalls initState [divideCallZ]).1
      = [{ content := "错误: 除数不能为零", toolCallId := "d1" }] ∧
    strStartsWith "错误: 除数不能为零" "Error executing divide" = false := by
  constructor
  · decide
  · decide

/-- C6 amended: every tool-call-request whose execution produces an error
result — a registered tool that fails, such as `divide` with divisor 0
(message `"除数不能为零"`), or a role tool whose invocation fails (message =
the `TypeError` text of the broken lazy context creation) — yields a Tool
turn whose content is exactly `"错误: "` followed by the failure message:
it starts with `"错误: "`, never with `"Error executing"`, and the tool
name is not included.  The loop does not abort, and the next round's model
invocation receives the message list extended with the assistant turn and
that error Tool turn. -/
theorem failingTool_error_turn (st : AppState) (tc : ToolCall) (emsg : String)
    (model : Model) (sid : Option String) (fuel : Nat) (msgs : List Msg)
    (hfail : List.lookup "error" (executeTool st tc).1 = some (PyValue.str emsg))
    (hm : model msgs = Except.ok ⟨"", [tc]⟩) :
    strStartsWith ("错误: " ++ emsg) "错误: " = true ∧
    processStream model sid (fuel + 1) st msgs
      = (Event.toolResult tc.name tc.args ("错误: " ++ emsg) 1 1
           :: (processStream model sid fuel (executeTool st tc).2
                (msgs ++ [Msg.ai "" [tc]] ++ [Msg.tool ("错误: " ++ emsg) tc.id])).1,
         (processStream model sid fuel (executeTool st tc).2
            (msgs ++ [Msg.ai "" [tc]] ++ [Msg.tool ("错误: " ++ emsg) tc.id])).2) := by
  constructor
  · exact strStartsWith_append "错误: " emsg
  · have hexec : executeToolCalls st [tc]
        = ([{ content := "错误: " ++ emsg, toolCallId := tc.id }], (executeTool st tc).2) := by
      simp [executeToolCalls, executeToolCallsGo, resultContent, hfail, PyValue.pystr]
    simp only [processStream, hm, List.isEmpty_cons, Bool.false_eq_true, if_false, hexec]
    simp [roundEvents]

/-- C6 witness: the amended behaviour at two concrete failing registered
tools — `divide` with divisor 0, and the registered `programmer` role tool
(whose invocation fails with the `TypeError` of the broken lazy context
creation, after recording the empty per-user context map). -/
theorem failingTool_error_turn_witness :
    List.lookup "error" (executeTool initState divideCallZ).1
      = some (PyValue.str "除数不能为零") ∧
    processStream divideStubModel Option.none 1 initState [Msg.system "s"]
      = ([Event.toolResult "divide" [("a", PyValue.num 1), ("b", PyValue.num 0)]
            ("错误: " ++ "除数不能为零") 1 1],
         initState, Option.none) ∧
    List.lookup "error" (executeTool initState progRoleCall).1
      = some (PyValue.str createSessionRoleIdTypeError) ∧
    processStream progRoleStubModel Option.none 1 initState [Msg.system "s"]
      = ([Event.toolResult "call_role_programmer" [("message", PyValue.str "hi")]
            ("错误: " ++ createSessionRoleIdTypeError) 1 1],
         { initState with roleContexts := [("default_user", [])] }, Option.none) := by
  refine ⟨by decide, ?_, by decide, ?_⟩
  · have h := failingTool_error_turn initState divideCallZ "除数不能为零" divideStubModel
        Option.none 0 [Msg.system "s"] (by decide) rfl
    rw [h.2]
    rfl
  · have h := failingTool_error_turn initState progRoleCall createSessionRoleIdTypeError
        progRoleStubModel Option.none 0 [Msg.system "s"] (by decide) rfl
    rw [h.2]
    rfl

/-- C7: evaluating the sentence splitter at the spec's own test input
`"你好。今天天气不错。"`: the code emits two `content` events whose
concatenation reconstructs the input, but both carry `is_final = false` —
no event is marked final, because the trailing `。` makes the last split
piece empty, it is skipped, and the `is_final` index comparison never
fires. -/
theorem contentChunks_trailing_eval :
    contentChunks "你好。今天天气不错。" = [("你好。", false), ("今天天气不错。", false)] ∧
    ((contentChunks "你好。今天天气不错。").all fun p => p.2 == false) = true ∧
    ((contentChunks "你好。今天天气不错。").foldl (fun acc p => acc ++ p.1) "")
      = "你好。今天天气不错。" := by
  refine ⟨?_, ?_, ?_⟩ <;> decide

/-- C8 counterexample: the non-streaming path does not run the loop.  With a
model whose first reply requests a tool call and whose reply after a tool
turn is final, the streaming machine terminates with assistant content
`"最终回答"`, while the non-streaming endpoint returns the first reply
`"先想想"` with its unexecuted tool-call list — not the streaming terminal
turn. -/
theorem nonStreaming_skips_loop_cex :
    (chatNonStreaming twoRoundModel initState Option.none
        [Msg.system "p", Msg.human "算一下"]).1
      = Except.ok { content := "先想想", toolCalls := [addCall], finishReason := "stop" } ∧
    (processStream twoRoundModel Option.none 2 initState
        [Msg.system "p", Msg.human "算一下"]).2.2
      = some "最终回答" ∧
    ("先想想" : String) ≠ "最终回答" := by
  refine ⟨rfl, rfl, by decide⟩

/-- C8 amended: the non-streaming endpoint performs exactly one model
invocation and returns its content and raw tool-call list without executing
any tool or iterating; it coincides with the streaming path's terminal
assistant turn exactly when the first reply carries no tool calls. -/
theorem nonStreaming_single_invoke (model : Model) (st : AppState)
    (sid : Option String) (msgs : List Msg) (fuel : Nat) (reply : ModelReply)
    (hm : model msgs = Except.ok reply) (hnc : reply.toolCalls = []) :
    (chatNonStreaming model st sid msgs).1
      = Except.ok { content := reply.content, toolCalls := [], finishReason := "stop" } ∧
    (processStream model sid (fuel + 1) st msgs).2.2 = some reply.content := by
  constructor
  · simp [chatNonStreaming, hm, hnc]
  · cases sid <;> simp [processStream, hm, hnc]

/-- C8 witness: the agreement case at a concrete tool-free model. -/
theorem nonStreaming_single_invoke_witness :
    (chatNonStreaming plainReplyModel initState Option.none [Msg.system "s"]).1
      = Except.ok { content := "你好", toolCalls := [], finishReason := "stop" } ∧
    (processStream plainReplyModel Option.none 1 initState [Msg.system "s"]).2.2
      = some "你好" :=
  nonStreaming_single_invoke plainReplyModel initState Option.none [Msg.system "s"] 0
    { content := "你好", toolCalls := [] } rfl rfl

/-- C9 counterexample: tool turns are never persisted to the session.  In a
completed streamed run with one inbound user turn and one executed tool
call, the session's message count rises from 0 to 2 (the user turn plus the
final assistant turn), not to 3 as "user turns + tool turns + final
assistant turn" claims. -/
theorem sessionCount_cex :
    numUserMsgs reqOneUser = 1 ∧
    countToolResults (chatStreamRun twoRoundModel stOneSession reqOneUser "s1" 2).1 = 1 ∧
    (chatStreamRun twoRoundModel stOneSession reqOneUser "s1" 2).2.2 = some "最终回答" ∧
    sessionMsgCount stOneSession "s1" = 0 ∧
    sessionMsgCount (chatStreamRun twoRoundModel stOneSession reqOneUser "s1" 2).2.1 "s1" = 2 ∧
    sessionMsgCount (chatStreamRun twoRoundModel stOneSession reqOneUser "s1" 2).2.1 "s1"
      ≠ sessionMsgCount stOneSession "s1" + numUserMsgs reqOneUser
          + countToolResults (chatStreamRun twoRoundModel stOneSession reqOneUser "s1" 2).1
          + 1 := by
  refine ⟨?_, ?_, ?_, ?_, ?_, ?_⟩ <;> decide

/-- C9 amended: after a completed streamed run bound to an existing session
(with the 100-message cap not reached), the persisted message count grows by
exactly the number of inbound user turns plus the one final assistant turn;
tool turns are not persisted. -/
theorem sessionCount_increase (model : Model) (st : AppState) (req : ChatRequest)
    (sid : String) (fuel : Nat) (s : ChatSession) (c : String)
    (hs : lookupSession st sid = some s)
    (hcap : s.messages.length + numUserMsgs req + 1 ≤ 100)
    (hterm : (chatStreamRun model st req sid fuel).2.2 = some c) :
    sessionMsgCount (chatStreamRun model st req sid fuel).2.1 sid
      = s.messages.length + numUserMsgs req + 1 := by
  have hrun : chatStreamRun model st req sid fuel
      = processStream model (some sid) fuel (saveUserMessages st sid req.messages)
          (convertMessages (saveUserMessages st sid req.messages) req.messages
            req.systemPrompt (if req.useMemory then some sid else Option.none)) := rfl
  rw [hrun] at hterm ⊢
  have hnum : numUserMsgs req = (req.messages.filter fun m => m.role == "user").length := rfl
  obtain ⟨s2, h2, hlen2⟩ := saveUserMessages_count req.messages st sid s hs
    (by rw [hnum] at hcap; omega)
  have hfin := processStream_terminal_count model sid fuel
      (saveUserMessages st sid req.messages)
      (convertMessages (saveUserMessages st sid req.messages) req.messages
        req.systemPrompt (if req.useMemory then some sid else Option.none))
      s2 c h2 (by rw [hlen2, ← hnum]; omega) hterm
  rw [hfin, hlen2, ← hnum]

/-- C9 witness: the amended count at the concrete two-round run. -/
theorem sessionCount_increase_witness :
    sessionMsgCount (chatStreamRun twoRoundModel stOneSession reqOneUser "s1" 2).2.1 "s1"
      = 0 + numUserMsgs reqOneUser + 1 :=
  sessionCount_increase twoRoundModel stOneSession reqOneUser "s1" 2
    { sessionId := "s1", messages := [], systemPrompt := "sys" } "最终回答"
    rfl (by decide) (by decide)

/-- C10: `add_message` keeps at most 100 persisted messages per session:
the stored list after an append is the suffix of the appended list that
drops all but the most recent 100 entries, its length is
`min (previous + 1) 100`, and this trimmed list is what the session store
persists. -/
theorem addMessage_caps_at_100 (st : AppState) (sid role content : String)
    (tcs : Option (List ToolCall)) (s : ChatSession)
    (hs : lookupSession st sid = some s) :
    ∃ s2, lookupSession (addMessage st sid role content tcs).2 sid = some s2 ∧
      s2.messages
        = ((s.messages ++ [(⟨role, content, tcs⟩ : ChatMessageRec)]).drop
            ((s.messages ++ [(⟨role, content, tcs⟩ : ChatMessageRec)]).length - 100)) ∧
      s2.messages.length ≤ 100 ∧
      s2.messages.length = min (s.messages.length + 1) 100 := by
  refine ⟨_, addMessage_lookup st sid role content tcs s hs, ?_, ?_, ?_⟩
  · exact cappedAppend_eq_drop _ _
  · rw [cappedAppend_length]; omega
  · exact cappedAppend_length _ _

/-- C10 witness: appending to a session already holding 100 messages keeps
the count at 100. -/
theorem addMessage_caps_at_100_witness :
    ∃ s2, lookupSession (addMessage stFullSession "sf" "user" "hi" Option.none).2 "sf"
        = some s2 ∧
      s2.messages.length = 100 := by
  obtain ⟨s2, h1, _, _, h4⟩ := addMessage_caps_at_100 stFullSession "sf" "user" "hi"
    Option.none
    { sessionId := "sf", messages := List.replicate 100 recUser, systemPrompt := "" }
    rfl
  refine ⟨s2, h1, ?_⟩
  rw [h4]
  simp

end ChainApp
